import Mathlib

/-
Shallow embedding of the fantasypl analytics core
(src/fantasypl_mcp/analytics/{form,fixtures,insights}.py).

Numbers: Python floats are modelled as rationals (ℚ), integers as ℤ.
Nullable database columns are modelled as Option; the Python `x or d`
idiom (which replaces both None and a zero value by the default) is
modelled by `pyOr` / `pyOrQ`.  `round(x, 2)` is modelled by `round2`
(round half to even, as the Python built-in round).

Database queries are the store collaborator: each engine function takes
the query results (entity lookups, pre-filtered and pre-ordered row
lists) as explicit arguments.  Presentation-only string fields that no
analysed property touches (formatted score strings, rationale strings,
kickoff timestamps) are omitted from the derived records; every numeric
field, flag and ordering of the source is reproduced.
-/

/-- Round half to even, as the Python built-in `round` on a rational value. -/
def rnd (x : ℚ) : ℤ :=
  if x - ⌊x⌋ < 1/2 then ⌊x⌋
  else if 1/2 < x - ⌊x⌋ then ⌊x⌋ + 1
  else if ⌊x⌋ % 2 = 0 then ⌊x⌋ else ⌊x⌋ + 1

/-- Python `round(x, 2)`: round to two decimal places. -/
def round2 (x : ℚ) : ℚ := (rnd (x * 100) : ℚ) / 100

/-- Python `v or d` for a nullable integer column: `None` and `0` are falsy. -/
def pyOr (v : Option ℤ) (d : ℤ) : ℤ :=
  match v with
  | none => d
  | some x => if x = 0 then d else x

/-- Python `v or d` for a nullable float column: `None` and `0.0` are falsy. -/
def pyOrQ (v : Option ℚ) (d : ℚ) : ℚ :=
  match v with
  | none => d
  | some x => if x = 0 then d else x

/-- POSITION_MAP = {1: "GK", 2: "DEF", 3: "MID", 4: "FWD"}, `.get(e, "UNK")`. -/
def POSITION_MAP (e : ℤ) : String :=
  if e = 1 then "GK" else if e = 2 then "DEF" else if e = 3 then "MID"
  else if e = 4 then "FWD" else "UNK"

/-- Row of the `teams` table (strength columns are nullable). -/
structure Team where
  id : ℤ
  name : String
  short_name : String
  strength_overall_home : Option ℤ
  strength_overall_away : Option ℤ
  strength_attack_home : Option ℤ
  strength_attack_away : Option ℤ
  strength_defence_home : Option ℤ
  strength_defence_away : Option ℤ
deriving Repr, DecidableEq

/-- Row of the `fixtures` table (fields read by the analytics core). -/
structure Fixture where
  id : ℤ
  event : Option ℤ
  team_h : ℤ
  team_a : ℤ
  team_h_score : Option ℤ
  team_a_score : Option ℤ
  team_h_difficulty : Option ℤ
  team_a_difficulty : Option ℤ
deriving Repr, DecidableEq

/-- Row of the `players` table (fields read by the analytics core). -/
structure Player where
  id : ℤ
  web_name : String
  team_id : ℤ
  element_type : ℤ
  now_cost : Option ℤ
  selected_by_percent : Option ℚ
  form : Option ℚ
  total_points : Option ℤ
  minutes : Option ℤ
  goals_scored : Option ℤ
  assists : Option ℤ
  clean_sheets : Option ℤ
  bonus : Option ℤ
  expected_goals : Option ℚ
  expected_assists : Option ℚ
  expected_goal_involvements : Option ℚ
deriving Repr, DecidableEq

/-- Row of the `player_history` table (fields read by the analytics core). -/
structure PlayerHistory where
  event : Option ℤ
  opponent_team : Option ℤ
  was_home : Option Bool
  total_points : Option ℤ
  minutes : Option ℤ
  goals_scored : Option ℤ
  assists : Option ℤ
  clean_sheets : Option ℤ
  bonus : Option ℤ
  expected_goals : Option ℚ
  expected_assists : Option ℚ
  expected_goal_involvements : Option ℚ
deriving Repr, DecidableEq

/-- The `teams_dict = {t.id: t for t in teams}` lookup: the last row with a
matching id wins, as in a Python dict comprehension. -/
def dictGet (ts : List Team) (i : ℤ) : Option Team :=
  (ts.filter (fun t => t.id == i)).getLast?

/-! ## FormEngine (analytics/form.py) -/

/-- One processed entry of the team recent-results loop
(form.py lines 91-128): a finished fixture with both scores present. -/
structure GameResult where
  fixture_id : ℤ
  opponent_id : ℤ
  home : Bool
  team_score : ℤ
  opp_score : ℤ
  result : String
  points : ℤ
deriving Repr, DecidableEq

/-- Loop body of `calculate_team_form`: fixtures with a missing score are
skipped (`continue`); win/draw/loss gives 3/1/0 match points. -/
def gameOf (team_id : ℤ) (f : Fixture) : Option GameResult :=
  let is_home := f.team_h = team_id
  let ts := if is_home then f.team_h_score else f.team_a_score
  let os := if is_home then f.team_a_score else f.team_h_score
  let opp_id := if is_home then f.team_a else f.team_h
  match ts, os with
  | some team_score, some opp_score =>
      if team_score > opp_score then
        some ⟨f.id, opp_id, is_home, team_score, opp_score, "W", 3⟩
      else if team_score = opp_score then
        some ⟨f.id, opp_id, is_home, team_score, opp_score, "D", 1⟩
      else
        some ⟨f.id, opp_id, is_home, team_score, opp_score, "L", 0⟩
  | _, _ => none

/-- `TeamFormAnalysis` (score strings of `recent_results` are carried as
structured `GameResult` entries). -/
structure TeamFormAnalysis where
  team_id : ℤ
  team_name : String
  last_n_games : ℕ
  wins : ℕ
  draws : ℕ
  losses : ℕ
  goals_scored : ℤ
  goals_conceded : ℤ
  clean_sheets : ℕ
  points : ℤ
  form_rating : ℚ
  trend : String
  recent_results : List GameResult
deriving Repr, DecidableEq

/-- Trend computation of `calculate_team_form` (form.py lines 143-153) on the
stored (reverse-chronological) `points_progression` list:
`first_half = sum(l[len(l)//2:])`, `second_half = sum(l[:len(l)//2])`. -/
def team_trend (pp : List ℤ) : String :=
  if 3 ≤ pp.length then
    let first_half := (pp.drop (pp.length / 2)).sum
    let second_half := (pp.take (pp.length / 2)).sum
    if second_half > first_half + 2 then "improving"
    else if first_half > second_half + 2 then "declining"
    else "stable"
  else "stable"

/-- Trend computation of `calculate_player_form` (form.py lines 272-283):
`diff = second_half - first_half`, thresholds ±5. -/
def player_trend (pp : List ℤ) : String :=
  if 3 ≤ pp.length then
    let first_half := (pp.drop (pp.length / 2)).sum
    let second_half := (pp.take (pp.length / 2)).sum
    let diff := second_half - first_half
    if diff > 5 then "improving"
    else if diff < -5 then "declining"
    else "stable"
  else "stable"

/-- `calculate_team_form(session, team_id, last_n_games)`.  The store
collaborator supplies `team` (the id lookup) and `fixtures` (the team
finished fixtures, ordered by kickoff time descending, already truncated
to `last_n_games`). -/
def calculate_team_form (team : Option Team) (team_id : ℤ)
    (fixtures : List Fixture) : Option TeamFormAnalysis :=
  match team with
  | none => none
  | some t =>
    if fixtures.isEmpty then none else
    let games := fixtures.filterMap (gameOf team_id)
    let wins := (games.filter (fun g => g.points = 3)).length
    let draws := (games.filter (fun g => g.points = 1)).length
    let losses := (games.filter (fun g => g.points = 0)).length
    let goals_scored := (games.map (fun g => g.team_score)).sum
    let goals_conceded := (games.map (fun g => g.opp_score)).sum
    let clean_sheets := (games.filter (fun g => g.opp_score = 0)).length
    let points_progression := games.map (fun g => g.points)
    let total_points : ℤ := wins * 3 + draws
    let games_played := wins + draws + losses
    if games_played = 0 then none else
    let ppg : ℚ := (total_points : ℚ) / (games_played : ℚ)
    let form_rating :=
      round2 (max 0 (min 10 ((ppg / 3) * 7
        + ((goals_scored : ℚ) / (games_played : ℚ)) * 1.5
        - ((goals_conceded : ℚ) / (games_played : ℚ)) * 0.5)))
    some {
      team_id := team_id
      team_name := t.name
      last_n_games := games_played
      wins := wins
      draws := draws
      losses := losses
      goals_scored := goals_scored
      goals_conceded := goals_conceded
      clean_sheets := clean_sheets
      points := total_points
      form_rating := form_rating
      trend := team_trend points_progression
      recent_results := games
    }

/-- `PlayerFormAnalysis` (the `recent_performances` projection is carried as
the underlying history rows). -/
structure PlayerFormAnalysis where
  player_id : ℤ
  player_name : String
  team_name : String
  position : String
  last_n_games : ℕ
  total_points : ℤ
  avg_points : ℚ
  minutes : ℤ
  goals : ℤ
  assists : ℤ
  clean_sheets : ℤ
  bonus_points : ℤ
  xg : ℚ
  xa : ℚ
  xgi : ℚ
  form_rating : ℚ
  trend : String
  recent_performances : List PlayerHistory
deriving Repr, DecidableEq

/-- `calculate_player_form(session, player_id, last_n_games)`.  The store
collaborator supplies `row` (the player joined with its team name) and
`history` (the player history rows, ordered by gameweek descending,
already truncated to `last_n_games`). -/
def calculate_player_form (row : Option (Player × String))
    (history : List PlayerHistory) : Option PlayerFormAnalysis :=
  match row with
  | none => none
  | some (p, team_name) =>
    if history.isEmpty then
      -- Fall back to current season stats if no history
      some {
        player_id := p.id
        player_name := p.web_name
        team_name := team_name
        position := POSITION_MAP p.element_type
        last_n_games := 0
        total_points := p.total_points.getD 0
        avg_points := pyOrQ p.form 0
        minutes := p.minutes.getD 0
        goals := p.goals_scored.getD 0
        assists := p.assists.getD 0
        clean_sheets := p.clean_sheets.getD 0
        bonus_points := p.bonus.getD 0
        xg := p.expected_goals.getD 0
        xa := p.expected_assists.getD 0
        xgi := p.expected_goal_involvements.getD 0
        form_rating := min 10 (pyOrQ p.form 0)
        trend := "stable"
        recent_performances := []
      }
    else
    let total_points : ℤ := (history.map (fun h => h.total_points.getD 0)).sum
    let minutes : ℤ := (history.map (fun h => h.minutes.getD 0)).sum
    let goals : ℤ := (history.map (fun h => h.goals_scored.getD 0)).sum
    let assists : ℤ := (history.map (fun h => h.assists.getD 0)).sum
    let clean_sheets : ℤ := (history.map (fun h => h.clean_sheets.getD 0)).sum
    let bonus_points : ℤ := (history.map (fun h => h.bonus.getD 0)).sum
    let xg : ℚ := (history.map (fun h => h.expected_goals.getD 0)).sum
    let xa : ℚ := (history.map (fun h => h.expected_assists.getD 0)).sum
    let xgi : ℚ := (history.map (fun h => h.expected_goal_involvements.getD 0)).sum
    let games_played := history.length
    let avg_points : ℚ :=
      if games_played > 0 then (total_points : ℚ) / (games_played : ℚ) else 0
    let points_progression := history.map (fun h => h.total_points.getD 0)
    let position := POSITION_MAP p.element_type
    let raw_rating : ℚ :=
      if position = "GK" then
        min 10 (avg_points * 1.2 + (clean_sheets : ℚ) * 0.5)
      else if position = "DEF" then
        min 10 (avg_points * 1.0 + (clean_sheets : ℚ) * 0.5
          + ((goals : ℚ) + (assists : ℚ)) * 0.3)
      else if position = "MID" then
        min 10 (avg_points * 0.8 + ((goals : ℚ) + (assists : ℚ)) * 0.5)
      else
        min 10 (avg_points * 0.7 + (goals : ℚ) * 0.8
          + (if (goals : ℚ) < xg then xg - (goals : ℚ) else 0) * 0.2)
    some {
      player_id := p.id
      player_name := p.web_name
      team_name := team_name
      position := position
      last_n_games := games_played
      total_points := total_points
      avg_points := round2 avg_points
      minutes := minutes
      goals := goals
      assists := assists
      clean_sheets := clean_sheets
      bonus_points := bonus_points
      xg := round2 xg
      xa := round2 xa
      xgi := round2 xgi
      form_rating := round2 (max 0 raw_rating)
      trend := player_trend points_progression
      recent_performances := history
    }

/-! ## FixtureDifficultyEngine (analytics/fixtures.py) -/

/-- Per-fixture difficulty formula (fixtures.py lines 106-116), applied to the
post-default opponent strengths and official difficulty:
`clamp(1, 10, fpl*2 + ((attack_factor + defence_factor)*2 - 2) + (∓0.5))`
with `factor = (value - 900) / 500`, then stored rounded to 2 decimals. -/
def calc_difficulty (is_home : Bool) (fpl_difficulty opp_attack opp_defence : ℤ) : ℚ :=
  let attack_factor : ℚ := ((opp_attack : ℚ) - 900) / 500
  let defence_factor : ℚ := ((opp_defence : ℚ) - 900) / 500
  let base_difficulty : ℚ := (fpl_difficulty : ℚ) * 2
  let strength_adjustment := (attack_factor + defence_factor) * 2 - 2
  let home_adjustment : ℚ := if is_home then -0.5 else 0.5
  round2 (max 1 (min 10 (base_difficulty + strength_adjustment + home_adjustment)))

/-- Difficulty rating for a single upcoming fixture (kickoff time omitted). -/
structure FixtureDifficultyRating where
  fixture_id : ℤ
  event : Option ℤ
  opponent_id : ℤ
  opponent_name : String
  opponent_short_name : String
  is_home : Bool
  fpl_difficulty : ℤ
  calculated_difficulty : ℚ
  opponent_form_rating : ℚ
  opponent_attack_strength : ℤ
  opponent_defence_strength : ℤ
deriving Repr, DecidableEq

/-- Loop body of `calculate_fixture_difficulty` (fixtures.py lines 85-135):
fixtures whose opponent is not in the team lookup are skipped. -/
def rate_fixture (teams : List Team) (team_id : ℤ) (f : Fixture) :
    Option FixtureDifficultyRating :=
  let is_home := f.team_h = team_id
  let opponent_id := if is_home then f.team_a else f.team_h
  match dictGet teams opponent_id with
  | none => none
  | some opponent =>
    let fpl_difficulty :=
      pyOr (if is_home then f.team_h_difficulty else f.team_a_difficulty) 3
    let opp_attack :=
      if is_home then pyOr opponent.strength_attack_away 1000
      else pyOr opponent.strength_attack_home 1000
    let opp_defence :=
      if is_home then pyOr opponent.strength_defence_away 1000
      else pyOr opponent.strength_defence_home 1000
    let overall_strength :=
      if is_home then pyOr opponent.strength_overall_away 1000
      else pyOr opponent.strength_overall_home 1000
    some {
      fixture_id := f.id
      event := f.event
      opponent_id := opponent_id
      opponent_name := opponent.name
      opponent_short_name := opponent.short_name
      is_home := is_home
      fpl_difficulty := fpl_difficulty
      calculated_difficulty := calc_difficulty is_home fpl_difficulty opp_attack opp_defence
      opponent_form_rating := round2 (((overall_strength : ℚ) - 900) / 50)
      opponent_attack_strength := opp_attack
      opponent_defence_strength := opp_defence
    }

/-- `TeamFixtureAnalysis`. -/
structure TeamFixtureAnalysis where
  team_id : ℤ
  team_name : String
  upcoming_fixtures : List FixtureDifficultyRating
  avg_difficulty : ℚ
  difficulty_rating : String
  easy_fixtures : ℕ
  hard_fixtures : ℕ
deriving Repr, DecidableEq

/-- `calculate_fixture_difficulty(session, team_id, num_fixtures)`.  The store
collaborator supplies `team` (the id lookup), `fixtures` (the team
unfinished fixtures ordered by gameweek, already truncated to
`num_fixtures`) and `teams` (the full team listing for opponent lookup). -/
def calculate_fixture_difficulty (team : Option Team) (team_id : ℤ)
    (fixtures : List Fixture) (teams : List Team) : Option TeamFixtureAnalysis :=
  match team with
  | none => none
  | some t =>
    if fixtures.isEmpty then
      some {
        team_id := team_id
        team_name := t.name
        upcoming_fixtures := []
        avg_difficulty := 0
        difficulty_rating := "unknown"
        easy_fixtures := 0
        hard_fixtures := 0
      }
    else
    let upcoming := fixtures.filterMap (rate_fixture teams team_id)
    if upcoming.isEmpty then
      some {
        team_id := team_id
        team_name := t.name
        upcoming_fixtures := []
        avg_difficulty := 0
        difficulty_rating := "unknown"
        easy_fixtures := 0
        hard_fixtures := 0
      }
    else
    let avg_difficulty :=
      (upcoming.map (fun f => f.calculated_difficulty)).sum / (upcoming.length : ℚ)
    let easy_fixtures := (upcoming.filter (fun f => f.calculated_difficulty ≤ 4)).length
    let hard_fixtures := (upcoming.filter (fun f => 7 ≤ f.calculated_difficulty)).length
    let difficulty_rating :=
      if avg_difficulty ≤ 4 then "easy"
      else if avg_difficulty ≤ 6 then "moderate"
      else "hard"
    some {
      team_id := team_id
      team_name := t.name
      upcoming_fixtures := upcoming
      avg_difficulty := round2 avg_difficulty
      difficulty_rating := difficulty_rating
      easy_fixtures := easy_fixtures
      hard_fixtures := hard_fixtures
    }

/-- `get_easiest_fixtures(session, num_fixtures, limit)`.  `analyses` is the
per-team result of `calculate_fixture_difficulty` over the full team
listing, in that listing order; teams without an analysis or without
upcoming fixtures are dropped, the rest are sorted ascending by average
difficulty (a stable sort, like the Python one) and truncated to `limit`. -/
def get_easiest_fixtures (analyses : List (Option TeamFixtureAnalysis))
    (limit : ℕ) : List TeamFixtureAnalysis :=
  (List.insertionSort (fun a b => a.avg_difficulty ≤ b.avg_difficulty)
    ((analyses.filterMap id).filter (fun a => !a.upcoming_fixtures.isEmpty))).take limit

/-- `get_hardest_fixtures(session, num_fixtures, limit)`: the full easiest
list (requested with `limit = len(teams)`, the length of the full team
listing), reversed, then truncated to `limit`. -/
def get_hardest_fixtures (analyses : List (Option TeamFixtureAnalysis))
    (limit : ℕ) : List TeamFixtureAnalysis :=
  ((get_easiest_fixtures analyses analyses.length).reverse).take limit

/-- One entry of the `identify_fixture_swings` output lists. -/
structure FixtureSwing where
  team_id : ℤ
  team_name : String
  current_difficulty : ℚ
  future_difficulty : ℚ
  change : ℚ
deriving Repr, DecidableEq

/-- Average difficulty of the first half of the team fixture window
(`fixtures[:len//2]`). -/
def swing_first_avg (a : TeamFixtureAnalysis) : ℚ :=
  let fs := a.upcoming_fixtures
  let first_half := fs.take (fs.length / 2)
  (first_half.map (fun f => f.calculated_difficulty)).sum / (first_half.length : ℚ)

/-- Average difficulty of the second half of the team fixture window
(`fixtures[len//2:]`). -/
def swing_second_avg (a : TeamFixtureAnalysis) : ℚ :=
  let fs := a.upcoming_fixtures
  let second_half := fs.drop (fs.length / 2)
  (second_half.map (fun f => f.calculated_difficulty)).sum / (second_half.length : ℚ)

/-- Loop body of `identify_fixture_swings` for the "improving" list: teams
with no analysis or fewer than 4 rated fixtures are skipped; a team
qualifies when `first_avg - second_avg > 2`. -/
def improving_swing (p : Team × Option TeamFixtureAnalysis) : Option FixtureSwing :=
  match p.2 with
  | none => none
  | some a =>
    if a.upcoming_fixtures.length < 4 then none
    else
      let first_avg := swing_first_avg a
      let second_avg := swing_second_avg a
      let diff := first_avg - second_avg
      if diff > 2 then
        some {
          team_id := p.1.id
          team_name := p.1.name
          current_difficulty := round2 first_avg
          future_difficulty := round2 second_avg
          change := round2 diff
        }
      else none

/-- Loop body of `identify_fixture_swings` for the "worsening" list: a team
qualifies when `first_avg - second_avg < -2`. -/
def worsening_swing (p : Team × Option TeamFixtureAnalysis) : Option FixtureSwing :=
  match p.2 with
  | none => none
  | some a =>
    if a.upcoming_fixtures.length < 4 then none
    else
      let first_avg := swing_first_avg a
      let second_avg := swing_second_avg a
      let diff := first_avg - second_avg
      if diff < -2 then
        some {
          team_id := p.1.id
          team_name := p.1.name
          current_difficulty := round2 first_avg
          future_difficulty := round2 second_avg
          change := round2 diff
        }
      else none

/-- `identify_fixture_swings(session, num_fixtures)`.  `entries` pairs each
team of the full listing with its `calculate_fixture_difficulty` result;
the returned pair is the ("improving", "worsening") lists, sorted by
change magnitude (descending resp. ascending). -/
def identify_fixture_swings (entries : List (Team × Option TeamFixtureAnalysis)) :
    List FixtureSwing × List FixtureSwing :=
  (List.insertionSort (fun x y => y.change ≤ x.change) (entries.filterMap improving_swing),
   List.insertionSort (fun x y => x.change ≤ y.change) (entries.filterMap worsening_swing))

/-! ## InsightsEngine (analytics/insights.py) -/

/-- `BogeyTeamResult`. -/
structure BogeyTeamResult where
  player_id : ℤ
  player_name : String
  opponent_id : ℤ
  opponent_name : String
  games_played : ℕ
  total_points : ℤ
  avg_points : ℚ
  goals : ℤ
  assists : ℤ
  overall_avg_points : ℚ
  performance_diff : ℚ
deriving Repr, DecidableEq

/-- SQL `AVG(total_points)` over the player history rows: the average of the
non-NULL values, `NULL` when there are none (then defaulted to 0 by
`overall_result.scalar() or 0`). -/
def overall_avg_points (hist : List PlayerHistory) : ℚ :=
  let vals := hist.filterMap (fun r => r.total_points)
  if vals.isEmpty then 0 else ((vals.sum : ℚ) / (vals.length : ℚ))

/-- The history rows of one `GROUP BY opponent_team` group. -/
def opponent_rows (hist : List PlayerHistory) (o : Option ℤ) : List PlayerHistory :=
  hist.filter (fun r => r.opponent_team == o)

/-- The opponent groups surviving `HAVING COUNT(id) >= min_games`
(each distinct `opponent_team` value, including NULL, is one group;
SQL fixes no group order, first-occurrence order is used here). -/
def opponent_groups (hist : List PlayerHistory) (min_games : ℤ) : List (Option ℤ) :=
  ((hist.map (fun r => r.opponent_team)).dedup).filter
    (fun o => min_games ≤ ((opponent_rows hist o).length : ℤ))

/-- SQL `AVG(total_points)` within one opponent group (`row.avg_points or 0`). -/
def group_avg_points (hist : List PlayerHistory) (o : Option ℤ) : ℚ :=
  let vals := (opponent_rows hist o).filterMap (fun r => r.total_points)
  if vals.isEmpty then 0 else ((vals.sum : ℚ) / (vals.length : ℚ))

/-- The deviation tested by the bogey/favored classification:
per-opponent average points minus the player overall average. -/
def opponent_deviation (hist : List PlayerHistory) (o : Option ℤ) : ℚ :=
  group_avg_points hist o - overall_avg_points hist

/-- Builds the `BogeyTeamResult` record for one opponent group (shared shape
of the loop bodies of `find_bogey_teams` / `find_favored_teams`). -/
def mk_opponent_result (p : Player) (hist : List PlayerHistory)
    (o : Option ℤ) (opp_id : ℤ) (opponent : Team) : BogeyTeamResult :=
  let rows := opponent_rows hist o
  { player_id := p.id
    player_name := p.web_name
    opponent_id := opp_id
    opponent_name := opponent.name
    games_played := rows.length
    total_points := (rows.filterMap (fun r => r.total_points)).sum
    avg_points := round2 (group_avg_points hist o)
    goals := (rows.filterMap (fun r => r.goals_scored)).sum
    assists := (rows.filterMap (fun r => r.assists)).sum
    overall_avg_points := round2 (overall_avg_points hist)
    performance_diff := round2 (opponent_deviation hist o) }

/-- Loop body of `find_bogey_teams` (insights.py lines 102-124): groups whose
opponent id is NULL or not in the team lookup are skipped; a group is
kept when its deviation is `< -1.0`. -/
def bogey_entry (p : Player) (teams : List Team) (hist : List PlayerHistory)
    (o : Option ℤ) : Option BogeyTeamResult :=
  match o with
  | none => none
  | some opp_id =>
    match dictGet teams opp_id with
    | none => none
    | some opponent =>
      if opponent_deviation hist o < -1 then
        some (mk_opponent_result p hist o opp_id opponent)
      else none

/-- Loop body of `find_favored_teams` (insights.py lines 168-189): a group is
kept when its deviation is `> 1.0`. -/
def favored_entry (p : Player) (teams : List Team) (hist : List PlayerHistory)
    (o : Option ℤ) : Option BogeyTeamResult :=
  match o with
  | none => none
  | some opp_id =>
    match dictGet teams opp_id with
    | none => none
    | some opponent =>
      if opponent_deviation hist o > 1 then
        some (mk_opponent_result p hist o opp_id opponent)
      else none

/-- `find_bogey_teams(session, player_id, min_games)`.  The store
collaborator supplies `player` (the id lookup), `teams` (the full team
listing) and `hist` (the player full history); the result is sorted
ascending by `performance_diff`. -/
def find_bogey_teams (player : Option Player) (teams : List Team)
    (hist : List PlayerHistory) (min_games : ℤ) : List BogeyTeamResult :=
  match player with
  | none => []
  | some p =>
    List.insertionSort (fun x y => x.performance_diff ≤ y.performance_diff)
      ((opponent_groups hist min_games).filterMap (bogey_entry p teams hist))

/-- `find_favored_teams(session, player_id, min_games)`: as
`find_bogey_teams` with the opposite threshold, sorted descending by
`performance_diff`. -/
def find_favored_teams (player : Option Player) (teams : List Team)
    (hist : List PlayerHistory) (min_games : ℤ) : List BogeyTeamResult :=
  match player with
  | none => []
  | some p =>
    List.insertionSort (fun x y => y.performance_diff ≤ x.performance_diff)
      ((opponent_groups hist min_games).filterMap (favored_entry p teams hist))

/-- `TransferSuggestion` (the rationale string is omitted). -/
structure TransferSuggestion where
  player_id : ℤ
  player_name : String
  team_name : String
  position : String
  price : ℚ
  form : ℚ
  form_rating : ℚ
  fixture_difficulty : ℚ
  ownership : ℚ
  expected_points : ℚ
  priority : ℤ
deriving Repr, DecidableEq

/-- One candidate of the `generate_transfer_suggestions` loop: a player from
the filtered, form-ordered, 50-limited store query, paired with the
collaborator results the loop fetches for it (the team lookup, the
5-fixture difficulty analysis and the 5-game recent form analysis). -/
structure TransferCandidate where
  player : Player
  team : Option Team
  fixture_analysis : Option TeamFixtureAnalysis
  form_analysis : Option PlayerFormAnalysis
deriving Repr, DecidableEq

/-- Loop body of `generate_transfer_suggestions` (insights.py lines 231-288):
players whose team is not in the lookup are skipped. -/
def suggestion_entry (c : TransferCandidate) : Option TransferSuggestion :=
  match c.team with
  | none => none
  | some team =>
    let fixture_diff :=
      match c.fixture_analysis with
      | some fa => fa.avg_difficulty
      | none => 5.0
    let form_rating :=
      match c.form_analysis with
      | some fa => fa.form_rating
      | none => pyOrQ c.player.form 0
    let base_expected := pyOrQ c.player.form 0 * 1.5
    let fixture_bonus := (5 - fixture_diff) * 0.3
    let expected_points := max 0 (base_expected + fixture_bonus)
    let priority : ℤ :=
      if form_rating ≥ 7 ∧ fixture_diff ≤ 4 then 1
      else if form_rating ≥ 5 ∧ fixture_diff ≤ 5 then 2
      else 3
    some {
      player_id := c.player.id
      player_name := c.player.web_name
      team_name := team.name
      position := POSITION_MAP c.player.element_type
      price := (pyOr c.player.now_cost 0 : ℚ) / 10
      form := pyOrQ c.player.form 0
      form_rating := form_rating
      fixture_difficulty := fixture_diff
      ownership := pyOrQ c.player.selected_by_percent 0
      expected_points := round2 expected_points
      priority := priority
    }

/-- The final ordering of `generate_transfer_suggestions`:
`key = (priority, -expected_points)`, ascending. -/
def suggestion_le (x y : TransferSuggestion) : Prop :=
  x.priority < y.priority ∨ (x.priority = y.priority ∧ y.expected_points ≤ x.expected_points)

instance : DecidableRel suggestion_le := fun x y => by
  unfold suggestion_le; infer_instance

/-- `generate_transfer_suggestions(session, budget, position, exclude, limit)`:
build a suggestion per candidate, sort by ascending priority breaking
ties by descending expected points, truncate to `limit`. -/
def generate_transfer_suggestions (cands : List TransferCandidate)
    (limit : ℕ) : List TransferSuggestion :=
  (List.insertionSort suggestion_le (cands.filterMap suggestion_entry)).take limit

/-- One candidate of the `get_captaincy_picks` loop: a player from the store
query (the explicit squad, or the top 30 by form), paired with the team
lookup and the single-fixture difficulty analysis fetched for it. -/
structure CaptaincyCandidate where
  player : Player
  team : Option Team
  fixture_analysis : Option TeamFixtureAnalysis
deriving Repr, DecidableEq

/-- Loop body of `get_captaincy_picks` (insights.py lines 404-446): players
whose team is not in the lookup, or without an upcoming fixture, are
skipped; the captain score is stored in the `form_rating` field. -/
def captaincy_entry (c : CaptaincyCandidate) : Option TransferSuggestion :=
  match c.team with
  | none => none
  | some team =>
    match c.fixture_analysis with
    | none => none
    | some fa =>
      match fa.upcoming_fixtures with
      | [] => none
      | next_fixture :: _ =>
        let fixture_diff := next_fixture.calculated_difficulty
        let form := pyOrQ c.player.form 0
        let captain_score := form * (10 - fixture_diff) / 10
        let captain_score :=
          if next_fixture.is_home then captain_score * 1.1 else captain_score
        some {
          player_id := c.player.id
          player_name := c.player.web_name
          team_name := team.name
          position := POSITION_MAP c.player.element_type
          price := (pyOr c.player.now_cost 0 : ℚ) / 10
          form := form
          form_rating := captain_score
          fixture_difficulty := fixture_diff
          ownership := pyOrQ c.player.selected_by_percent 0
          expected_points := round2 (captain_score * 2)
          priority := 1
        }

/-- `get_captaincy_picks(session, team_player_ids, limit)`: build a pick per
candidate, sort descending by the captain score stored in `form_rating`,
truncate to `limit`. -/
def get_captaincy_picks (cands : List CaptaincyCandidate)
    (limit : ℕ) : List TransferSuggestion :=
  (List.insertionSort (fun x y => y.form_rating ≤ x.form_rating)
    (cands.filterMap captaincy_entry)).take limit

/-! ## Concrete sample data used in scenario checks -/

/-- A plain team with no strength data. -/
def tA : Team :=
  { id := 1, name := "A", short_name := "A"
    strength_overall_home := none, strength_overall_away := none
    strength_attack_home := none, strength_attack_away := none
    strength_defence_home := none, strength_defence_away := none }

/-- The spec scenario opponent: home attack and defence strength 1400. -/
def tStrong : Team :=
  { id := 2, name := "B", short_name := "B"
    strength_overall_home := none, strength_overall_away := none
    strength_attack_home := some 1400, strength_attack_away := none
    strength_defence_home := some 1400, strength_defence_away := none }

/-- The spec scenario fixture: team 1 away at team 2, official difficulty 5. -/
def fxScen : Fixture :=
  { id := 20, event := some 5, team_h := 2, team_a := 1
    team_h_score := none, team_a_score := none
    team_h_difficulty := none, team_a_difficulty := some 5 }

/-- The difficulty rating that the scenario fixture produces. -/
def rScen : FixtureDifficultyRating :=
  { fixture_id := 20, event := some 5, opponent_id := 2
    opponent_name := "B", opponent_short_name := "B"
    is_home := false, fpl_difficulty := 5, calculated_difficulty := 10
    opponent_form_rating := 2
    opponent_attack_strength := 1400, opponent_defence_strength := 1400 }

/-- An opponent whose home attack strength column holds 0 (a falsy value). -/
def tZero : Team :=
  { id := 2, name := "Z", short_name := "Z"
    strength_overall_home := none, strength_overall_away := none
    strength_attack_home := some 0, strength_attack_away := none
    strength_defence_home := some 1000, strength_defence_away := none }

/-- The same opponent with home attack strength raised from 0 to 100. -/
def tWeak : Team :=
  { id := 2, name := "Z", short_name := "Z"
    strength_overall_home := none, strength_overall_away := none
    strength_attack_home := some 100, strength_attack_away := none
    strength_defence_home := some 1000, strength_defence_away := none }

/-- An upcoming away fixture for team 1 with no stored difficulty or scores. -/
def fxAway : Fixture :=
  { id := 10, event := some 1, team_h := 2, team_a := 1
    team_h_score := none, team_a_score := none
    team_h_difficulty := none, team_a_difficulty := none }

/-- A player whose stored season form is negative. -/
def pNeg : Player :=
  { id := 5, web_name := "N", team_id := 1, element_type := 3
    now_cost := none, selected_by_percent := none, form := some (-1)
    total_points := none, minutes := none, goals_scored := none
    assists := none, clean_sheets := none, bonus := none
    expected_goals := none, expected_assists := none
    expected_goal_involvements := none }

/-- A midfielder with no stored season form. -/
def pCex : Player :=
  { id := 7, web_name := "C", team_id := 1, element_type := 3
    now_cost := none, selected_by_percent := none, form := none
    total_points := none, minutes := none, goals_scored := none
    assists := none, clean_sheets := none, bonus := none
    expected_goals := none, expected_assists := none
    expected_goal_involvements := none }

/-- The fallback analysis `calculate_player_form` yields for `pCex`
with no history rows. -/
def aPCex : PlayerFormAnalysis :=
  { player_id := 7, player_name := "C", team_name := "A", position := "MID"
    last_n_games := 0, total_points := 0, avg_points := 0, minutes := 0
    goals := 0, assists := 0, clean_sheets := 0, bonus_points := 0
    xg := 0, xa := 0, xgi := 0, form_rating := 0, trend := "stable"
    recent_performances := [] }

/-- A single gameweek row worth 10 points. -/
def hist10 : PlayerHistory :=
  { event := some 8, opponent_team := some 2, was_home := some true
    total_points := some 10, minutes := none, goals_scored := none
    assists := none, clean_sheets := none, bonus := none
    expected_goals := none, expected_assists := none
    expected_goal_involvements := none }

/-- An opponent with away attack and defence strength exactly 900. -/
def tPlain : Team :=
  { id := 2, name := "P", short_name := "P"
    strength_overall_home := none, strength_overall_away := none
    strength_attack_home := none, strength_attack_away := some 900
    strength_defence_home := none, strength_defence_away := some 900 }

/-- An upcoming home fixture for team 1 with no stored difficulty. -/
def fxH : Fixture :=
  { id := 30, event := some 9, team_h := 1, team_a := 2
    team_h_score := none, team_a_score := none
    team_h_difficulty := none, team_a_difficulty := none }

/-- A transfer candidate whose stored season form (0) differs from its
recomputed recent form rating (8). -/
def cCex : TransferCandidate :=
  { player := pCex, team := some tA
    fixture_analysis := calculate_fixture_difficulty (some tA) 1 [fxH] [tA, tPlain]
    form_analysis := calculate_player_form (some (pCex, "A")) [hist10] }

/-- A captaincy candidate for which no fixture analysis is available. -/
def cSkip : CaptaincyCandidate :=
  { player := pCex, team := some tA, fixture_analysis := none }

/-! ## Helper lemmas -/

theorem rnd_cases (x : ℚ) : rnd x = ⌊x⌋ ∨ rnd x = ⌊x⌋ + 1 := by
  unfold rnd
  split_ifs <;> simp

theorem floor_le_rnd (x : ℚ) : ⌊x⌋ ≤ rnd x := by
  rcases rnd_cases x with h | h <;> omega

theorem rnd_le_floor_add_one (x : ℚ) : rnd x ≤ ⌊x⌋ + 1 := by
  rcases rnd_cases x with h | h <;> omega

theorem le_rnd {n : ℤ} {x : ℚ} (h : (n : ℚ) ≤ x) : n ≤ rnd x :=
  le_trans (Int.le_floor.2 h) (floor_le_rnd x)

theorem rnd_le {n : ℤ} {x : ℚ} (h : x ≤ (n : ℚ)) : rnd x ≤ n := by
  have hf : ⌊x⌋ ≤ n := by
    have := Int.floor_le_floor h
    simpa using this
  rcases lt_or_eq_of_le hf with hlt | heq
  · exact le_trans (rnd_le_floor_add_one x) (by omega)
  · have hxn : x = (n : ℚ) := by
      have h1 : (n : ℚ) ≤ x := by
        rw [← heq]
        exact Int.floor_le x
      linarith
    subst hxn
    simp [rnd, Int.floor_intCast]

theorem rnd_mono {x y : ℚ} (h : x ≤ y) : rnd x ≤ rnd y := by
  rcases lt_or_le ⌊x⌋ ⌊y⌋ with hf | hf
  · exact le_trans (rnd_le_floor_add_one x) (le_trans (by omega) (floor_le_rnd y))
  · have hfe : ⌊x⌋ = ⌊y⌋ := le_antisymm (Int.floor_le_floor h) hf
    have hfx : (⌊x⌋ : ℚ) ≤ x := Int.floor_le x
    have hfy : (⌊y⌋ : ℚ) ≤ y := Int.floor_le y
    unfold rnd
    rw [hfe]
    split_ifs <;> first | omega | linarith

theorem round2_le {n : ℤ} {x : ℚ} (h : x ≤ (n : ℚ)) : round2 x ≤ (n : ℚ) := by
  have h1 : x * 100 ≤ ((n * 100 : ℤ) : ℚ) := by push_cast; linarith
  have h2 : rnd (x * 100) ≤ n * 100 := rnd_le h1
  have h3 : ((rnd (x * 100) : ℤ) : ℚ) ≤ ((n * 100 : ℤ) : ℚ) := by exact_mod_cast h2
  unfold round2
  rw [div_le_iff₀ (by norm_num : (0:ℚ) < 100)]
  push_cast at h3 ⊢
  linarith

theorem le_round2 {n : ℤ} {x : ℚ} (h : (n : ℚ) ≤ x) : (n : ℚ) ≤ round2 x := by
  have h1 : ((n * 100 : ℤ) : ℚ) ≤ x * 100 := by push_cast; linarith
  have h2 : n * 100 ≤ rnd (x * 100) := le_rnd h1
  have h3 : ((n * 100 : ℤ) : ℚ) ≤ ((rnd (x * 100) : ℤ) : ℚ) := by exact_mod_cast h2
  unfold round2
  rw [le_div_iff₀ (by norm_num : (0:ℚ) < 100)]
  push_cast at h3 ⊢
  linarith

theorem round2_mono {x y : ℚ} (h : x ≤ y) : round2 x ≤ round2 y := by
  have h1 : x * 100 ≤ y * 100 := by linarith
  have h2 : rnd (x * 100) ≤ rnd (y * 100) := rnd_mono h1
  unfold round2
  have h3 : ((rnd (x * 100) : ℤ) : ℚ) ≤ ((rnd (y * 100) : ℤ) : ℚ) := by exact_mod_cast h2
  have h4 : ((rnd (x * 100) : ℤ) : ℚ) / 100 ≤ ((rnd (y * 100) : ℤ) : ℚ) / 100 := by
    apply div_le_div_of_nonneg_right h3
    norm_num
  exact h4

theorem sorted_insertionSort_of {α : Type} (r : α → α → Prop) [DecidableRel r]
    (tot : ∀ a b, r a b ∨ r b a) (tr : ∀ a b c, r a b → r b c → r a c)
    (l : List α) : List.Sorted r (List.insertionSort r l) := by
  haveI : IsTotal α r := ⟨tot⟩
  haveI : IsTrans α r := ⟨tr⟩
  exact List.sorted_insertionSort r l

theorem calculate_team_form_inv {t : Team} {tid : ℤ} {fixtures : List Fixture}
    {a : TeamFormAnalysis} (h : calculate_team_form (some t) tid fixtures = some a) :
    (∃ x, a.form_rating = round2 (max 0 (min 10 x))) ∧
    a.trend = team_trend ((fixtures.filterMap (gameOf tid)).map (fun g => g.points)) := by
  rw [calculate_team_form] at h
  dsimp only at h
  split_ifs at h
  obtain rfl := Option.some.inj h
  exact ⟨⟨_, rfl⟩, rfl⟩

theorem calculate_player_form_inv {p : Player} {tn : String}
    {history : List PlayerHistory} {a : PlayerFormAnalysis}
    (h : calculate_player_form (some (p, tn)) history = some a) :
    (history = [] ∧ a.form_rating = min 10 (pyOrQ p.form 0) ∧ a.trend = "stable") ∨
    (history ≠ [] ∧ (∃ x, a.form_rating = round2 (max 0 (min 10 x))) ∧
      a.trend = player_trend (history.map (fun hr => hr.total_points.getD 0))) := by
  rw [calculate_player_form] at h
  dsimp only at h
  by_cases he : history.isEmpty
  · left
    rw [if_pos he] at h
    obtain rfl := Option.some.inj h
    exact ⟨List.isEmpty_iff.1 he, rfl, rfl⟩
  · right
    rw [if_neg he] at h
    refine ⟨fun hc => he (by simp [hc]), ?_, ?_⟩
    · obtain rfl := Option.some.inj h
      dsimp only
      split_ifs <;> exact ⟨_, by rw [max_comm] ⟩
    · obtain rfl := Option.some.inj h
      rfl

theorem rate_fixture_inv {teams : List Team} {tid : ℤ} {f : Fixture}
    {r : FixtureDifficultyRating} (h : rate_fixture teams tid f = some r) :
    r.calculated_difficulty =
      calc_difficulty r.is_home r.fpl_difficulty
        r.opponent_attack_strength r.opponent_defence_strength := by
  rw [rate_fixture] at h
  dsimp only at h
  rcases hd : dictGet teams (if f.team_h = tid then f.team_a else f.team_h) with _ | op
  · rw [hd] at h
    exact absurd h (by simp)
  · rw [hd] at h
    obtain rfl := Option.some.inj h
    rfl

theorem calc_difficulty_bounds (ih : Bool) (fpl oa od : ℤ) :
    1 ≤ calc_difficulty ih fpl oa od ∧ calc_difficulty ih fpl oa od ≤ 10 := by
  unfold calc_difficulty
  constructor
  · have h1 : (1 : ℚ) ≤ max 1 (min 10 (((fpl : ℚ)) * 2
        + ((((oa : ℚ) - 900) / 500 + ((od : ℚ) - 900) / 500) * 2 - 2)
        + (if ih then -0.5 else 0.5))) := le_max_left _ _
    have := le_round2 (n := 1) (by exact_mod_cast h1)
    exact_mod_cast this
  · have h1 : max 1 (min 10 (((fpl : ℚ)) * 2
        + ((((oa : ℚ) - 900) / 500 + ((od : ℚ) - 900) / 500) * 2 - 2)
        + (if ih then -0.5 else 0.5))) ≤ 10 :=
      max_le (by norm_num) (min_le_left _ _)
    have := round2_le (n := 10) (by exact_mod_cast h1)
    exact_mod_cast this

theorem calculate_fixture_difficulty_mem {team : Option Team} {tid : ℤ}
    {fixtures : List Fixture} {teams : List Team} {a : TeamFixtureAnalysis}
    {r : FixtureDifficultyRating}
    (h : calculate_fixture_difficulty team tid fixtures teams = some a)
    (hr : r ∈ a.upcoming_fixtures) :
    ∃ f ∈ fixtures, rate_fixture teams tid f = some r := by
  match team with
  | none => rw [calculate_fixture_difficulty] at h; exact absurd h (by simp)
  | some t =>
    rw [calculate_fixture_difficulty] at h
    dsimp only at h
    split_ifs at h <;> obtain rfl := Option.some.inj h <;> dsimp only at hr <;>
      first
        | exact List.mem_filterMap.1 hr
        | exact absurd hr (List.not_mem_nil r)

/-! ## Claims -/

/-- Claim C1 (amended): every team form rating satisfies `0 ≤ form_rating ≤ 10`;
every per-fixture calculated difficulty satisfies
`1 ≤ calculated_difficulty ≤ 10`; a player form rating is always `≤ 10`,
and is `≥ 0` whenever it is computed from history rows or the stored
season form is nonnegative (the no-history fallback applies `min(10, ·)`
without a lower clamp). -/
theorem c1_rating_bounds :
    (∀ (team : Option Team) (tid : ℤ) (fixtures : List Fixture) (a : TeamFormAnalysis),
      calculate_team_form team tid fixtures = some a →
        0 ≤ a.form_rating ∧ a.form_rating ≤ 10) ∧
    (∀ (p : Player) (tn : String) (history : List PlayerHistory) (a : PlayerFormAnalysis),
      calculate_player_form (some (p, tn)) history = some a →
        a.form_rating ≤ 10 ∧ ((history ≠ [] ∨ 0 ≤ pyOrQ p.form 0) → 0 ≤ a.form_rating)) ∧
    (∀ (team : Option Team) (tid : ℤ) (fixtures : List Fixture) (teams : List Team)
      (a : TeamFixtureAnalysis),
      calculate_fixture_difficulty team tid fixtures teams = some a →
        ∀ r ∈ a.upcoming_fixtures,
          1 ≤ r.calculated_difficulty ∧ r.calculated_difficulty ≤ 10) := by
  refine ⟨?_, ?_, ?_⟩
  · rintro (_ | t) tid fixtures a h
    · exact absurd h (by simp [calculate_team_form])
    · obtain ⟨⟨x, hx⟩, -⟩ := calculate_team_form_inv h
      rw [hx]
      constructor
      · have h0 : ((0 : ℤ) : ℚ) ≤ max 0 (min 10 x) := by
          push_cast
          exact le_max_left _ _
        have := le_round2 h0
        exact_mod_cast this
      · have h10 : max 0 (min 10 x) ≤ ((10 : ℤ) : ℚ) := by
          push_cast
          exact max_le (by norm_num) (min_le_left _ _)
        have := round2_le h10
        exact_mod_cast this
  · intro p tn history a h
    rcases calculate_player_form_inv h with ⟨hnil, hfr, -⟩ | ⟨hne, ⟨x, hx⟩, -⟩
    · rw [hfr]
      constructor
      · exact min_le_left _ _
      · rintro (hcon | hpos)
        · exact absurd hnil hcon
        · exact le_min (by norm_num) hpos
    · rw [hx]
      constructor
      · have h10 : max 0 (min 10 x) ≤ ((10 : ℤ) : ℚ) := by
          push_cast
          exact max_le (by norm_num) (min_le_left _ _)
        have := round2_le h10
        exact_mod_cast this
      · intro
        have h0 : ((0 : ℤ) : ℚ) ≤ max 0 (min 10 x) := by
          push_cast
          exact le_max_left _ _
        have := le_round2 h0
        exact_mod_cast this
  · intro team tid fixtures teams a h r hr
    obtain ⟨f, -, hf⟩ := calculate_fixture_difficulty_mem h hr
    rw [rate_fixture_inv hf]
    exact calc_difficulty_bounds _ _ _ _

/-- Counterexample to claim C1: a player with no history rows and stored season form
−1 gets `form_rating = −1`, outside the claimed `[0, 10]` bounds. -/
theorem c1_counterexample :
    (calculate_player_form (some (pNeg, "A")) []).map (fun a => a.form_rating)
      = some (-1) ∧ ¬(0 ≤ (-1 : ℚ)) := by
  constructor
  · norm_num [calculate_player_form, pNeg, pyOrQ, min_def]
  · norm_num

/-- Witness for claim C1: the fallback analysis of a player with stored form 0 has
`form_rating = 0`, inside the amended bounds. -/
theorem c1_witness :
    calculate_player_form (some (pCex, "A")) [] = some aPCex ∧
    0 ≤ aPCex.form_rating ∧ aPCex.form_rating ≤ 10 := by
  have hEq : calculate_player_form (some (pCex, "A")) [] = some aPCex := by
    norm_num [calculate_player_form, pCex, aPCex, pyOrQ, POSITION_MAP, min_def]
  refine ⟨hEq, ?_, (c1_rating_bounds.2.1 pCex "A" [] aPCex hEq).1⟩
  exact (c1_rating_bounds.2.1 pCex "A" [] aPCex hEq).2
    (Or.inr (by norm_num [pCex, pyOrQ]))

/-- Claim C9: `calculate_team_form` yields an absent result when the team lookup
fails, when the fetched fixture list is empty, and when every fetched
fixture lacks a complete pair of scores. -/
theorem c9_team_form_absent (team : Option Team) (tid : ℤ) (fixtures : List Fixture) :
    (team = none → calculate_team_form team tid fixtures = none) ∧
    (fixtures = [] → calculate_team_form team tid fixtures = none) ∧
    ((∀ f ∈ fixtures, f.team_h_score = none ∨ f.team_a_score = none) →
      calculate_team_form team tid fixtures = none) := by
  refine ⟨?_, ?_, ?_⟩
  · rintro rfl
    rfl
  · rintro rfl
    rcases team with _ | t
    · rfl
    · simp [calculate_team_form]
  · intro hall
    rcases team with _ | t
    · rfl
    · rw [calculate_team_form]
      dsimp only
      by_cases he : fixtures.isEmpty
      · rw [if_pos he]
      · rw [if_neg he]
        have hg : fixtures.filterMap (gameOf tid) = [] := by
          rw [List.filterMap_eq_nil_iff]
          intro f hf
          by_cases hh : f.team_h = tid <;>
            rcases hall f hf with h0 | h0 <;> simp [gameOf, hh, h0]
        simp [hg]

/-- Witness for claim C9: a resolved team whose only fetched fixture has no scores
yields an absent analysis. -/
theorem c9_witness :
    (∀ f ∈ [fxAway], f.team_h_score = none ∨ f.team_a_score = none) ∧
    calculate_team_form (some tA) 1 [fxAway] = none := by
  have hall : ∀ f ∈ [fxAway], f.team_h_score = none ∨ f.team_a_score = none := by
    intro f hf
    rcases List.mem_singleton.1 hf with rfl
    exact Or.inl rfl
  exact ⟨hall, (c9_team_form_absent (some tA) 1 [fxAway]).2.2 hall⟩

/-- Claim C3: both trend classifiers return "stable" below 3 games; at 3 or more
games they compare the recent half (smaller indices of the stored
reverse-chronological list) against the earlier half (larger indices)
with thresholds 2 (team) and 5 (player); `calculate_team_form` and
`calculate_player_form` apply them to the stored per-game points list;
on the stored list `[8, 8, 2, 2]` both classify "improving". -/
theorem c3_trend :
    (∀ pp : List ℤ, pp.length < 3 →
      team_trend pp = "stable" ∧ player_trend pp = "stable") ∧
    (∀ pp : List ℤ, 3 ≤ pp.length →
      (team_trend pp = "improving" ↔
        (pp.take (pp.length / 2)).sum > (pp.drop (pp.length / 2)).sum + 2) ∧
      (team_trend pp = "declining" ↔
        (pp.drop (pp.length / 2)).sum > (pp.take (pp.length / 2)).sum + 2) ∧
      (player_trend pp = "improving" ↔
        (pp.take (pp.length / 2)).sum - (pp.drop (pp.length / 2)).sum > 5) ∧
      (player_trend pp = "declining" ↔
        (pp.take (pp.length / 2)).sum - (pp.drop (pp.length / 2)).sum < -5)) ∧
    (∀ (t : Team) (tid : ℤ) (fixtures : List Fixture) (a : TeamFormAnalysis),
      calculate_team_form (some t) tid fixtures = some a →
        a.trend = team_trend ((fixtures.filterMap (gameOf tid)).map (fun g => g.points))) ∧
    (∀ (p : Player) (tn : String) (history : List PlayerHistory) (a : PlayerFormAnalysis),
      history ≠ [] → calculate_player_form (some (p, tn)) history = some a →
        a.trend = player_trend (history.map (fun hr => hr.total_points.getD 0))) ∧
    team_trend [8, 8, 2, 2] = "improving" ∧ player_trend [8, 8, 2, 2] = "improving" := by
  refine ⟨?_, ?_, ?_, ?_, ?_, ?_⟩
  · intro pp h
    constructor <;>
      · simp only [team_trend, player_trend]
        rw [if_neg (by omega)]
  · intro pp h
    refine ⟨?_, ?_, ?_, ?_⟩ <;>
      · simp only [team_trend, player_trend]
        rw [if_pos h]
        split_ifs with h1 h2 <;> simp_all <;> omega
  · intro t tid fixtures a h
    exact (calculate_team_form_inv h).2
  · intro p tn history a hne h
    rcases calculate_player_form_inv h with ⟨hnil, -, -⟩ | ⟨-, -, htr⟩
    · exact absurd hnil hne
    · exact htr
  · decide
  · decide

/-- Witness for claim C3: a two-game points list is classified "stable" by both
trend classifiers. -/
theorem c3_witness :
    ([(3 : ℤ), 1].length < 3) ∧
    team_trend [3, 1] = "stable" ∧ player_trend [3, 1] = "stable" :=
  ⟨by decide, (c3_trend.1 [3, 1] (by decide)).1, (c3_trend.1 [3, 1] (by decide)).2⟩

/-- Claim C4: `get_hardest_fixtures` is the reversal of the complete ascending
easiest list (requested over all teams), truncated to the limit
afterwards; with the limit equal to the number of qualifying teams the
two lists are exact reverses of each other. -/
theorem c4_hardest_is_reverse_of_easiest
    (analyses : List (Option TeamFixtureAnalysis)) (limit : ℕ) :
    get_hardest_fixtures analyses limit =
      ((get_easiest_fixtures analyses
        ((analyses.filterMap id).filter
          (fun a => !a.upcoming_fixtures.isEmpty)).length).reverse).take limit ∧
    (get_easiest_fixtures analyses
        ((analyses.filterMap id).filter
          (fun a => !a.upcoming_fixtures.isEmpty)).length).reverse =
      get_hardest_fixtures analyses
        ((analyses.filterMap id).filter
          (fun a => !a.upcoming_fixtures.isEmpty)).length := by
  have hlen : ((analyses.filterMap id).filter
      (fun a => !a.upcoming_fixtures.isEmpty)).length ≤ analyses.length :=
    le_trans (List.length_filter_le _ _) (List.length_filterMap_le _ _)
  have hsorted_len : (List.insertionSort
      (fun a b => a.avg_difficulty ≤ b.avg_difficulty)
      ((analyses.filterMap id).filter
        (fun a => !a.upcoming_fixtures.isEmpty))).length =
      ((analyses.filterMap id).filter
        (fun a => !a.upcoming_fixtures.isEmpty)).length :=
    List.length_insertionSort _ _
  have heq : ∀ n, ((analyses.filterMap id).filter
      (fun a => !a.upcoming_fixtures.isEmpty)).length ≤ n →
      get_easiest_fixtures analyses n =
        List.insertionSort (fun a b => a.avg_difficulty ≤ b.avg_difficulty)
          ((analyses.filterMap id).filter (fun a => !a.upcoming_fixtures.isEmpty)) := by
    intro n hn
    unfold get_easiest_fixtures
    exact List.take_of_length_le (by rw [hsorted_len]; exact hn)
  constructor
  · unfold get_hardest_fixtures
    rw [heq _ hlen, heq _ le_rfl]
  · unfold get_hardest_fixtures
    rw [heq _ hlen, heq _ le_rfl]
    rw [List.take_of_length_le (by rw [List.length_reverse, hsorted_len])]

/-- Claim C2: each rated fixture stored difficulty is the two-decimal rounding
of `clamp(1, 10, official*2 + ((attack_factor + defence_factor)*2 - 2) +
(-0.5 if home else +0.5))` with `factor = (strength - 900)/500`; in the
spec scenario (away fixture, official difficulty 5, opponent attack and
defence strength 1400) the produced difficulty is exactly 10. -/
theorem c2_difficulty_formula :
    (∀ (teams : List Team) (tid : ℤ) (f : Fixture) (r : FixtureDifficultyRating),
      rate_fixture teams tid f = some r →
        r.calculated_difficulty = round2 (max 1 (min 10
          ((r.fpl_difficulty : ℚ) * 2
            + ((((r.opponent_attack_strength : ℚ) - 900) / 500
                + ((r.opponent_defence_strength : ℚ) - 900) / 500) * 2 - 2)
            + (if r.is_home then -0.5 else 0.5))))) ∧
    (calculate_fixture_difficulty (some tA) 1 [fxScen] [tA, tStrong]).map
      (fun a => a.avg_difficulty) = some 10 ∧
    (calculate_fixture_difficulty (some tA) 1 [fxScen] [tA, tStrong]).map
      (fun a => a.upcoming_fixtures.map (fun r => r.calculated_difficulty))
      = some [10] := by
  have hform : ∀ (teams : List Team) (tid : ℤ) (f : Fixture) (r : FixtureDifficultyRating),
      rate_fixture teams tid f = some r →
        r.calculated_difficulty = round2 (max 1 (min 10
          ((r.fpl_difficulty : ℚ) * 2
            + ((((r.opponent_attack_strength : ℚ) - 900) / 500
                + ((r.opponent_defence_strength : ℚ) - 900) / 500) * 2 - 2)
            + (if r.is_home then -0.5 else 0.5)))) := by
    intro teams tid f r h
    rw [rate_fixture_inv h]
    rfl
  have hrate : rate_fixture [tA, tStrong] 1 fxScen = some rScen := by
    norm_num [rate_fixture, dictGet, calc_difficulty, round2, rnd, pyOr,
      tA, tStrong, fxScen, rScen, min_def, max_def]
  have hlist : List.filterMap (rate_fixture [tA, tStrong] 1) [fxScen] = [rScen] := by
    simp [List.filterMap_cons, hrate]
  refine ⟨hform, ?_, ?_⟩ <;>
    norm_num [calculate_fixture_difficulty, hlist, rScen, round2, rnd,
      min_def, max_def]

/-- Witness for claim C2: the scenario fixture instantiates the difficulty formula. -/
theorem c2_witness :
    rate_fixture [tA, tStrong] 1 fxScen = some rScen ∧
    rScen.calculated_difficulty = round2 (max 1 (min 10
      ((rScen.fpl_difficulty : ℚ) * 2
        + ((((rScen.opponent_attack_strength : ℚ) - 900) / 500
            + ((rScen.opponent_defence_strength : ℚ) - 900) / 500) * 2 - 2)
        + (if rScen.is_home then -0.5 else 0.5)))) := by
  have hrate : rate_fixture [tA, tStrong] 1 fxScen = some rScen := by
    norm_num [rate_fixture, dictGet, calc_difficulty, round2, rnd, pyOr,
      tA, tStrong, fxScen, rScen, min_def, max_def]
  exact ⟨hrate, c2_difficulty_formula.1 [tA, tStrong] 1 fxScen rScen hrate⟩

/-- Claim C5 (amended): holding venue and official difficulty fixed, increasing
the opponent attack or defence strength never decreases the calculated
difficulty, provided the strength values involved are nonzero; a zero
strength is falsy in Python and is replaced by the default 1000. -/
theorem c5_monotone_nonzero (ih : Bool) (fpl a a2 d d2 : ℤ)
    (ha : a ≠ 0) (ha2 : a2 ≠ 0) (hd : d ≠ 0) (hd2 : d2 ≠ 0)
    (hle : a ≤ a2) (hle2 : d ≤ d2) :
    calc_difficulty ih fpl (pyOr (some a) 1000) (pyOr (some d) 1000) ≤
      calc_difficulty ih fpl (pyOr (some a2) 1000) (pyOr (some d2) 1000) := by
  simp only [pyOr, if_neg ha, if_neg ha2, if_neg hd, if_neg hd2]
  unfold calc_difficulty
  apply round2_mono
  apply max_le_max le_rfl
  apply min_le_min le_rfl
  have haq : (a : ℚ) ≤ (a2 : ℚ) := by exact_mod_cast hle
  have hdq : (d : ℚ) ≤ (d2 : ℚ) := by exact_mod_cast hle2
  have h1 : ((a : ℚ) - 900) / 500 ≤ ((a2 : ℚ) - 900) / 500 :=
    div_le_div_of_nonneg_right (by linarith) (by norm_num)
  have h2 : ((d : ℚ) - 900) / 500 ≤ ((d2 : ℚ) - 900) / 500 :=
    div_le_div_of_nonneg_right (by linarith) (by norm_num)
  linarith

/-- Counterexample to claim C5: raising an opponent home attack strength from the
falsy value 0 (defaulted to 1000) to 100 drops the produced difficulty
from 5.3 to 1.7, so the claimed monotonicity fails at strength 0. -/
theorem c5_counterexample :
    (0 : ℤ) ≤ 100 ∧
    tZero.strength_attack_home = some 0 ∧
    tWeak.strength_attack_home = some 100 ∧
    tZero.strength_defence_home = tWeak.strength_defence_home ∧
    (calculate_fixture_difficulty (some tA) 1 [fxAway] [tA, tWeak]).map
      (fun a => a.avg_difficulty) = some (17/10) ∧
    (calculate_fixture_difficulty (some tA) 1 [fxAway] [tA, tZero]).map
      (fun a => a.avg_difficulty) = some (53/10) ∧
    (17/10 : ℚ) < 53/10 := by
  have hw : rate_fixture [tA, tWeak] 1 fxAway =
      some ⟨10, some 1, 2, "Z", "Z", false, 3, 17/10, 2, 100, 1000⟩ := by
    norm_num [rate_fixture, dictGet, calc_difficulty, round2, rnd, pyOr,
      tA, tWeak, fxAway, min_def, max_def]
  have hz : rate_fixture [tA, tZero] 1 fxAway =
      some ⟨10, some 1, 2, "Z", "Z", false, 3, 53/10, 2, 1000, 1000⟩ := by
    norm_num [rate_fixture, dictGet, calc_difficulty, round2, rnd, pyOr,
      tA, tZero, fxAway, min_def, max_def]
  have hwl : List.filterMap (rate_fixture [tA, tWeak] 1) [fxAway] =
      [⟨10, some 1, 2, "Z", "Z", false, 3, 17/10, 2, 100, 1000⟩] := by
    simp [List.filterMap_cons, hw]
  have hzl : List.filterMap (rate_fixture [tA, tZero] 1) [fxAway] =
      [⟨10, some 1, 2, "Z", "Z", false, 3, 53/10, 2, 1000, 1000⟩] := by
    simp [List.filterMap_cons, hz]
  refine ⟨by norm_num, rfl, rfl, rfl, ?_, ?_, by norm_num⟩ <;>
    norm_num [calculate_fixture_difficulty, hwl, hzl, round2, rnd, min_def, max_def]

/-- Witness for claim C5: with both strengths nonzero the monotonicity holds at a
concrete increase from 1000 to 1100. -/
theorem c5_witness :
    ((1000 : ℤ) ≠ 0 ∧ (1100 : ℤ) ≠ 0 ∧ (1000 : ℤ) ≤ 1100) ∧
    calc_difficulty false 3 (pyOr (some 1000) 1000) (pyOr (some 1000) 1000) ≤
      calc_difficulty false 3 (pyOr (some 1100) 1000) (pyOr (some 1000) 1000) :=
  ⟨⟨by decide, by decide, by decide⟩,
    c5_monotone_nonzero false 3 1000 1100 1000 1000
      (by decide) (by decide) (by decide) (by decide) (by decide) (by decide)⟩

theorem improving_swing_inv {q : Team × Option TeamFixtureAnalysis} {s : FixtureSwing}
    (h : improving_swing q = some s) :
    s.team_id = q.1.id ∧ ∃ a, q.2 = some a ∧ 4 ≤ a.upcoming_fixtures.length := by
  rcases q with ⟨t, _ | a⟩
  · exact absurd h (by simp [improving_swing])
  · rw [improving_swing] at h
    dsimp only at h
    split_ifs at h with h1 h2
    · obtain rfl := Option.some.inj h
      exact ⟨rfl, a, rfl, by omega⟩

theorem worsening_swing_inv {q : Team × Option TeamFixtureAnalysis} {s : FixtureSwing}
    (h : worsening_swing q = some s) :
    s.team_id = q.1.id ∧ ∃ a, q.2 = some a ∧ 4 ≤ a.upcoming_fixtures.length := by
  rcases q with ⟨t, _ | a⟩
  · exact absurd h (by simp [worsening_swing])
  · rw [worsening_swing] at h
    dsimp only at h
    split_ifs at h with h1 h2
    · obtain rfl := Option.some.inj h
      exact ⟨rfl, a, rfl, by omega⟩

/-- Claim C10: a team with no fixture analysis or fewer than 4 rated upcoming
fixtures appears in neither the "improving" nor the "worsening" list of
`identify_fixture_swings`, whatever its difficulty delta would be. -/
theorem c10_swings_need_four (entries : List (Team × Option TeamFixtureAnalysis))
    (hn : (entries.map (fun p => p.1.id)).Nodup) :
    ∀ p ∈ entries,
      (p.2 = none ∨ ∃ a, p.2 = some a ∧ a.upcoming_fixtures.length < 4) →
      (∀ s ∈ (identify_fixture_swings entries).1, s.team_id ≠ p.1.id) ∧
      (∀ s ∈ (identify_fixture_swings entries).2, s.team_id ≠ p.1.id) := by
  intro p hp hshort
  have hkey : ∀ (q : Team × Option TeamFixtureAnalysis), q ∈ entries →
      ∀ s : FixtureSwing,
      (improving_swing q = some s ∨ worsening_swing q = some s) →
      s.team_id ≠ p.1.id := by
    intro q hq s hqs habs
    have hinv : s.team_id = q.1.id ∧ ∃ a, q.2 = some a ∧ 4 ≤ a.upcoming_fixtures.length := by
      rcases hqs with h | h
      · exact improving_swing_inv h
      · exact worsening_swing_inv h
    obtain ⟨hid, a, ha, hlen⟩ := hinv
    have hpq : q = p :=
      List.inj_on_of_nodup_map hn hq hp (by rw [← hid, habs])
    subst hpq
    rcases hshort with h0 | ⟨a2, ha2, hlt⟩
    · rw [h0] at ha
      exact Option.noConfusion ha
    · rw [ha2] at ha
      obtain rfl := Option.some.inj ha
      omega
  constructor
  · intro s hs
    have hs2 : s ∈ entries.filterMap improving_swing := by
      have := hs
      rw [identify_fixture_swings] at this
      exact (List.mem_insertionSort _).1 this
    obtain ⟨q, hq, hqs⟩ := List.mem_filterMap.1 hs2
    exact hkey q hq s (Or.inl hqs)
  · intro s hs
    have hs2 : s ∈ entries.filterMap worsening_swing := by
      have := hs
      rw [identify_fixture_swings] at this
      exact (List.mem_insertionSort _).1 this
    obtain ⟨q, hq, hqs⟩ := List.mem_filterMap.1 hs2
    exact hkey q hq s (Or.inr hqs)

/-- Witness for claim C10: a team with no analysis appears in neither swing list. -/
theorem c10_witness :
    ([((tA, none) : Team × Option TeamFixtureAnalysis)].map (fun p => p.1.id)).Nodup ∧
    (∀ s ∈ (identify_fixture_swings [(tA, none)]).1, s.team_id ≠ tA.id) ∧
    (∀ s ∈ (identify_fixture_swings [(tA, none)]).2, s.team_id ≠ tA.id) := by
  have hn : ([((tA, none) : Team × Option TeamFixtureAnalysis)].map
      (fun p => p.1.id)).Nodup := by simp
  have := c10_swings_need_four [(tA, none)] hn (tA, none) (by simp) (Or.inl rfl)
  exact ⟨hn, this.1, this.2⟩

theorem captaincy_entry_inv {c : CaptaincyCandidate} {s : TransferSuggestion}
    (h : captaincy_entry c = some s) :
    s.player_id = c.player.id ∧ ∃ fa next rest, c.fixture_analysis = some fa ∧
      fa.upcoming_fixtures = next :: rest ∧
      s.fixture_difficulty = next.calculated_difficulty ∧
      s.form_rating = (if next.is_home
        then (pyOrQ c.player.form 0 * (10 - next.calculated_difficulty) / 10) * 1.1
        else pyOrQ c.player.form 0 * (10 - next.calculated_difficulty) / 10) := by
  rcases c with ⟨pl, tm, fan⟩
  rcases tm with _ | tm
  · exact absurd h (by simp [captaincy_entry])
  · rcases fan with _ | fa
    · exact absurd h (by simp [captaincy_entry])
    · rw [captaincy_entry] at h
      dsimp only at h
      rcases hu : fa.upcoming_fixtures with _ | ⟨next, rest⟩ <;> rw [hu] at h
      · exact absurd h (by simp)
      · obtain rfl := Option.some.inj h
        exact ⟨rfl, fa, next, rest, rfl, hu, rfl, rfl⟩

/-- Claim C8: `get_captaincy_picks` drops every candidate without an upcoming
fixture; each returned pick stores
`captain_score = form * (10 - next_fixture_difficulty) / 10`, multiplied
by 1.1 when the next fixture is home, in the `form_rating` field; and the
returned list is sorted descending by that score. -/
theorem c8_captaincy (cands : List CaptaincyCandidate) (limit : ℕ)
    (hn : (cands.map (fun c => c.player.id)).Nodup) :
    (∀ c ∈ cands,
      (c.fixture_analysis = none ∨
        ∃ fa, c.fixture_analysis = some fa ∧ fa.upcoming_fixtures = []) →
      ∀ s ∈ get_captaincy_picks cands limit, s.player_id ≠ c.player.id) ∧
    (∀ s ∈ get_captaincy_picks cands limit, ∃ c ∈ cands,
      captaincy_entry c = some s ∧ ∃ fa next rest, c.fixture_analysis = some fa ∧
        fa.upcoming_fixtures = next :: rest ∧
        s.fixture_difficulty = next.calculated_difficulty ∧
        s.form_rating = (if next.is_home
          then (pyOrQ c.player.form 0 * (10 - next.calculated_difficulty) / 10) * 1.1
          else pyOrQ c.player.form 0 * (10 - next.calculated_difficulty) / 10)) ∧
    List.Pairwise (fun x y => y.form_rating ≤ x.form_rating)
      (get_captaincy_picks cands limit) := by
  have hmem : ∀ s, s ∈ get_captaincy_picks cands limit →
      ∃ c ∈ cands, captaincy_entry c = some s := by
    intro s hs
    rw [get_captaincy_picks] at hs
    have hs2 := List.mem_of_mem_take hs
    exact List.mem_filterMap.1 ((List.mem_insertionSort _).1 hs2)
  refine ⟨?_, ?_, ?_⟩
  · intro c hc hno s hs habs
    obtain ⟨c2, hc2, hent⟩ := hmem s hs
    obtain ⟨hid, fa, next, rest, hfa, hcons, -, -⟩ := captaincy_entry_inv hent
    have hc2c : c2 = c := List.inj_on_of_nodup_map hn hc2 hc (by rw [← hid, habs])
    subst hc2c
    rcases hno with h0 | ⟨fa2, hfa2, hemp⟩
    · rw [h0] at hfa
      exact Option.noConfusion hfa
    · rw [hfa2] at hfa
      obtain rfl := Option.some.inj hfa
      rw [hemp] at hcons
      exact List.noConfusion hcons
  · intro s hs
    obtain ⟨c, hc, hent⟩ := hmem s hs
    obtain ⟨-, fa, next, rest, hfa, hcons, hd, hf⟩ := captaincy_entry_inv hent
    exact ⟨c, hc, hent, fa, next, rest, hfa, hcons, hd, hf⟩
  · rw [get_captaincy_picks]
    apply List.Pairwise.sublist (List.take_sublist _ _)
    exact sorted_insertionSort_of
      (fun (x y : TransferSuggestion) => y.form_rating ≤ x.form_rating)
      (fun a b => le_total b.form_rating a.form_rating)
      (fun a b c hab hbc => le_trans hbc hab) _

/-- Witness for claim C8: a candidate with no fixture analysis yields no pick. -/
theorem c8_witness :
    ([cSkip].map (fun c => c.player.id)).Nodup ∧
    ∀ s ∈ get_captaincy_picks [cSkip] 5, s.player_id ≠ cSkip.player.id := by
  have hn : ([cSkip].map (fun c => c.player.id)).Nodup := by simp
  exact ⟨hn, (c8_captaincy [cSkip] 5 hn).1 cSkip (by simp) (Or.inl rfl)⟩

theorem suggestion_entry_inv {c : TransferCandidate} {s : TransferSuggestion}
    (h : suggestion_entry c = some s) :
    s.form = pyOrQ c.player.form 0 ∧
    s.expected_points = round2 (max 0 (s.form * 1.5 + (5 - s.fixture_difficulty) * 0.3)) ∧
    s.priority = (if s.form_rating ≥ 7 ∧ s.fixture_difficulty ≤ 4 then 1
      else if s.form_rating ≥ 5 ∧ s.fixture_difficulty ≤ 5 then 2 else 3) := by
  rcases c with ⟨pl, tm, fan, fon⟩
  rcases tm with _ | tm
  · exact absurd h (by simp [suggestion_entry])
  · rw [suggestion_entry] at h
    dsimp only at h
    obtain rfl := Option.some.inj h
    exact ⟨rfl, rfl, rfl⟩

/-- Claim C7 (amended): every transfer suggestion stores
`expected_points = round2(max(0, season_form*1.5 + (5 - fixture_difficulty)*0.3))`
computed from the player stored season form (the `form` field), not the
recomputed recent form rating; the priority tiers use the recent form
rating as claimed; and the list is ordered by ascending priority with
ties broken by descending expected points. -/
theorem c7_suggestions (cands : List TransferCandidate) (limit : ℕ) :
    (∀ s ∈ generate_transfer_suggestions cands limit,
      (∃ c ∈ cands, suggestion_entry c = some s ∧ s.form = pyOrQ c.player.form 0) ∧
      s.expected_points = round2 (max 0 (s.form * 1.5 + (5 - s.fixture_difficulty) * 0.3)) ∧
      s.priority = (if s.form_rating ≥ 7 ∧ s.fixture_difficulty ≤ 4 then 1
        else if s.form_rating ≥ 5 ∧ s.fixture_difficulty ≤ 5 then 2 else 3)) ∧
    List.Pairwise suggestion_le (generate_transfer_suggestions cands limit) := by
  have hmem : ∀ s, s ∈ generate_transfer_suggestions cands limit →
      ∃ c ∈ cands, suggestion_entry c = some s := by
    intro s hs
    rw [generate_transfer_suggestions] at hs
    have hs2 := List.mem_of_mem_take hs
    exact List.mem_filterMap.1 ((List.mem_insertionSort _).1 hs2)
  constructor
  · intro s hs
    obtain ⟨c, hc, hent⟩ := hmem s hs
    obtain ⟨hf, he, hp⟩ := suggestion_entry_inv hent
    exact ⟨⟨c, hc, hent, hf⟩, he, hp⟩
  · rw [generate_transfer_suggestions]
    apply List.Pairwise.sublist (List.take_sublist _ _)
    apply sorted_insertionSort_of suggestion_le
    · intro a b
      rcases lt_trichotomy a.priority b.priority with h | h | h
      · exact Or.inl (Or.inl h)
      · rcases le_total b.expected_points a.expected_points with he | he
        · exact Or.inl (Or.inr ⟨h, he⟩)
        · exact Or.inr (Or.inr ⟨h.symm, he⟩)
      · exact Or.inr (Or.inl h)
    · intro a b c hab hbc
      rcases hab with h1 | ⟨h1, h2⟩ <;> rcases hbc with h3 | ⟨h3, h4⟩
      · exact Or.inl (lt_trans h1 h3)
      · exact Or.inl (h3 ▸ h1)
      · exact Or.inl (h1 ▸ h3)
      · exact Or.inr ⟨h1.trans h3, le_trans h4 h2⟩

theorem cCex_fixture_analysis :
    calculate_fixture_difficulty (some tA) 1 [fxH] [tA, tPlain] =
      some ⟨1, "A", [⟨30, some 9, 2, "P", "P", true, 3, 7/2, 2, 900, 900⟩],
        7/2, "easy", 1, 0⟩ := by
  have hrate : rate_fixture [tA, tPlain] 1 fxH =
      some ⟨30, some 9, 2, "P", "P", true, 3, 7/2, 2, 900, 900⟩ := by
    norm_num [rate_fixture, dictGet, calc_difficulty, round2, rnd, pyOr,
      tA, tPlain, fxH, min_def, max_def]
  have hlist : List.filterMap (rate_fixture [tA, tPlain] 1) [fxH] =
      [⟨30, some 9, 2, "P", "P", true, 3, 7/2, 2, 900, 900⟩] := by
    simp [List.filterMap_cons, hrate]
  rw [calculate_fixture_difficulty]
  dsimp only
  rw [if_neg (by simp), hlist]
  norm_num [tA, round2, rnd, min_def, max_def]

theorem cCex_form_analysis :
    calculate_player_form (some (pCex, "A")) [hist10] =
      some ⟨7, "C", "A", "MID", 1, 10, 10, 0, 0, 0, 0, 0, 0, 0, 0, 8, "stable",
        [hist10]⟩ := by
  norm_num +decide [calculate_player_form, pCex, hist10, pyOrQ, POSITION_MAP,
    player_trend, round2, rnd, min_def, max_def]

theorem transfer_suggestions_cCex :
    generate_transfer_suggestions [cCex] 10 =
      [⟨7, "C", "A", "MID", 0, 0, 8, 7/2, 0, 9/20, 1⟩] := by
  have hent : suggestion_entry cCex =
      some ⟨7, "C", "A", "MID", 0, 0, 8, 7/2, 0, 9/20, 1⟩ := by
    have hteam : cCex.team = some tA := rfl
    have hfa : cCex.fixture_analysis =
        some ⟨1, "A", [⟨30, some 9, 2, "P", "P", true, 3, 7/2, 2, 900, 900⟩],
          7/2, "easy", 1, 0⟩ := cCex_fixture_analysis
    have hfo : cCex.form_analysis =
        some ⟨7, "C", "A", "MID", 1, 10, 10, 0, 0, 0, 0, 0, 0, 0, 0, 8, "stable",
          [hist10]⟩ := cCex_form_analysis
    rw [suggestion_entry, hteam, hfa, hfo]
    norm_num +decide [cCex, pCex, tA, pyOrQ, POSITION_MAP, pyOr, round2, rnd,
      min_def, max_def]
  have hfm : List.filterMap suggestion_entry [cCex] =
      [⟨7, "C", "A", "MID", 0, 0, 8, 7/2, 0, 9/20, 1⟩] := by
    simp [List.filterMap_cons, hent]
  rw [generate_transfer_suggestions, hfm]
  rfl

/-- Counterexample to claim C7: for a player whose stored season form is 0 but whose
recomputed recent form rating is 8, with 5-fixture difficulty 3.5, the
emitted suggestion has `expected_points = 0.45`, not
`max(0, 8*1.5 + (5-3.5)*0.3) = 12.45` as the claim (reading `form` as
the recent form rating) would require. -/
theorem c7_counterexample :
    (generate_transfer_suggestions [cCex] 10).map
      (fun s => (s.form_rating, s.fixture_difficulty, s.expected_points))
      = [(8, 7/2, 9/20)] ∧
    ¬((9/20 : ℚ) = max 0 ((8 : ℚ) * 1.5 + (5 - 7/2) * 0.3)) := by
  constructor
  · rw [transfer_suggestions_cCex]
    rfl
  · rw [max_def]
    norm_num

/-- Witness for claim C7: the concrete suggestion instantiates the amended formula. -/
theorem c7_witness :
    (⟨7, "C", "A", "MID", 0, 0, 8, 7/2, 0, 9/20, 1⟩ : TransferSuggestion) ∈
      generate_transfer_suggestions [cCex] 10 ∧
    (9/20 : ℚ) = round2 (max 0 ((0 : ℚ) * 1.5 + (5 - 7/2) * 0.3)) := by
  have hmem : (⟨7, "C", "A", "MID", 0, 0, 8, 7/2, 0, 9/20, 1⟩ : TransferSuggestion) ∈
      generate_transfer_suggestions [cCex] 10 := by
    rw [transfer_suggestions_cCex]
    exact List.mem_singleton.2 rfl
  exact ⟨hmem, ((c7_suggestions [cCex] 10).1 _ hmem).2.1⟩

theorem bogey_entry_some_iff {p : Player} {teams : List Team}
    {hist : List PlayerHistory} {o : Option ℤ} {r : BogeyTeamResult} :
    bogey_entry p teams hist o = some r ↔
      ∃ i opp, o = some i ∧ dictGet teams i = some opp ∧
        opponent_deviation hist o < -1 ∧ r = mk_opponent_result p hist o i opp := by
  constructor
  · intro h
    rcases o with _ | i
    · exact absurd h (by simp [bogey_entry])
    · simp only [bogey_entry] at h
      rcases hd : dictGet teams i with _ | opp <;> rw [hd] at h
      · exact absurd h (by simp)
      · split_ifs at h with hdev
        obtain rfl := Option.some.inj h
        exact ⟨i, opp, rfl, hd, hdev, rfl⟩
  · rintro ⟨i, opp, rfl, hd, hdev, rfl⟩
    simp only [bogey_entry]
    rw [hd]
    dsimp only
    rw [if_pos hdev]

theorem favored_entry_some_iff {p : Player} {teams : List Team}
    {hist : List PlayerHistory} {o : Option ℤ} {r : BogeyTeamResult} :
    favored_entry p teams hist o = some r ↔
      ∃ i opp, o = some i ∧ dictGet teams i = some opp ∧
        1 < opponent_deviation hist o ∧ r = mk_opponent_result p hist o i opp := by
  constructor
  · intro h
    rcases o with _ | i
    · exact absurd h (by simp [favored_entry])
    · simp only [favored_entry] at h
      rcases hd : dictGet teams i with _ | opp <;> rw [hd] at h
      · exact absurd h (by simp)
      · split_ifs at h with hdev
        obtain rfl := Option.some.inj h
        exact ⟨i, opp, rfl, hd, hdev, rfl⟩
  · rintro ⟨i, opp, rfl, hd, hdev, rfl⟩
    simp only [favored_entry]
    rw [hd]
    dsimp only
    split_ifs with h2
    · rfl
    · exact absurd hdev h2

/-- Claim C6: `find_bogey_teams` keeps exactly the opponents with at least
`min_games` recorded games whose deviation from the player overall
average is strictly below -1.0, sorted ascending by the stored deviation;
`find_favored_teams` keeps exactly those strictly above +1.0, sorted
descending; and no opponent appears in both lists. -/
theorem c6_bogey_favored (player : Player) (teams : List Team)
    (hist : List PlayerHistory) (mg : ℤ) :
    (∀ o : ℤ,
      (∃ r ∈ find_bogey_teams (some player) teams hist mg, r.opponent_id = o) ↔
        (some o ∈ opponent_groups hist mg ∧ (dictGet teams o).isSome ∧
          opponent_deviation hist (some o) < -1)) ∧
    (∀ o : ℤ,
      (∃ r ∈ find_favored_teams (some player) teams hist mg, r.opponent_id = o) ↔
        (some o ∈ opponent_groups hist mg ∧ (dictGet teams o).isSome ∧
          1 < opponent_deviation hist (some o))) ∧
    List.Pairwise (fun x y => x.performance_diff ≤ y.performance_diff)
      (find_bogey_teams (some player) teams hist mg) ∧
    List.Pairwise (fun x y => y.performance_diff ≤ x.performance_diff)
      (find_favored_teams (some player) teams hist mg) ∧
    (∀ o : ℤ,
      ¬((∃ r ∈ find_bogey_teams (some player) teams hist mg, r.opponent_id = o) ∧
        (∃ r ∈ find_favored_teams (some player) teams hist mg, r.opponent_id = o))) := by
  have hbog : ∀ o : ℤ,
      (∃ r ∈ find_bogey_teams (some player) teams hist mg, r.opponent_id = o) ↔
        (some o ∈ opponent_groups hist mg ∧ (dictGet teams o).isSome ∧
          opponent_deviation hist (some o) < -1) := by
    intro o
    constructor
    · rintro ⟨r, hr, rfl⟩
      rw [find_bogey_teams] at hr
      obtain ⟨o2, ho2, hent⟩ := List.mem_filterMap.1 ((List.mem_insertionSort _).1 hr)
      obtain ⟨i, opp, rfl, hd, hdev, rfl⟩ := bogey_entry_some_iff.1 hent
      exact ⟨ho2, by dsimp only [mk_opponent_result]; rw [hd]; rfl, hdev⟩
    · rintro ⟨hgr, hsome, hdev⟩
      obtain ⟨opp, hd⟩ := Option.isSome_iff_exists.1 hsome
      refine ⟨mk_opponent_result player hist (some o) o opp, ?_, rfl⟩
      rw [find_bogey_teams]
      apply (List.mem_insertionSort _).2
      exact List.mem_filterMap.2 ⟨some o, hgr,
        bogey_entry_some_iff.2 ⟨o, opp, rfl, hd, hdev, rfl⟩⟩
  have hfav : ∀ o : ℤ,
      (∃ r ∈ find_favored_teams (some player) teams hist mg, r.opponent_id = o) ↔
        (some o ∈ opponent_groups hist mg ∧ (dictGet teams o).isSome ∧
          1 < opponent_deviation hist (some o)) := by
    intro o
    constructor
    · rintro ⟨r, hr, rfl⟩
      rw [find_favored_teams] at hr
      obtain ⟨o2, ho2, hent⟩ := List.mem_filterMap.1 ((List.mem_insertionSort _).1 hr)
      obtain ⟨i, opp, rfl, hd, hdev, rfl⟩ := favored_entry_some_iff.1 hent
      exact ⟨ho2, by dsimp only [mk_opponent_result]; rw [hd]; rfl, hdev⟩
    · rintro ⟨hgr, hsome, hdev⟩
      obtain ⟨opp, hd⟩ := Option.isSome_iff_exists.1 hsome
      refine ⟨mk_opponent_result player hist (some o) o opp, ?_, rfl⟩
      rw [find_favored_teams]
      apply (List.mem_insertionSort _).2
      exact List.mem_filterMap.2 ⟨some o, hgr,
        favored_entry_some_iff.2 ⟨o, opp, rfl, hd, hdev, rfl⟩⟩
  refine ⟨hbog, hfav, ?_, ?_, ?_⟩
  · rw [find_bogey_teams]
    exact sorted_insertionSort_of
      (fun (x y : BogeyTeamResult) => x.performance_diff ≤ y.performance_diff)
      (fun a b => le_total a.performance_diff b.performance_diff)
      (fun a b c hab hbc => le_trans hab hbc) _
  · rw [find_favored_teams]
    exact sorted_insertionSort_of
      (fun (x y : BogeyTeamResult) => y.performance_diff ≤ x.performance_diff)
      (fun a b => le_total b.performance_diff a.performance_diff)
      (fun a b c hab hbc => le_trans hbc hab) _
  · intro o ⟨hb, hf⟩
    have h1 := ((hbog o).1 hb).2.2
    have h2 := ((hfav o).1 hf).2.2
    linarith
